import Mathlib

/-!
# Verification of the ChurBro price-extraction pipeline

A shallow embedding of the price-extraction, cleanup and aggregation logic of
the ChurBro grocery-price scraper (sources: `automated_scraper_NW_FIXED_V3.py`,
`automated_scraper_WW_FIXED.py`, `automated_scraper_MB.py`,
`automated_scraper_PS_FIXED_V3.py`, `cleanup_newworld_v3.py`,
`cleanup_woolworths.py`, `cleanup_paknsave_v3.py`, `daily_scrape_v4_combined.py`).

Modelling conventions:

* Money is represented exactly, as integer micro-dollars (`ℤ`, 1 dollar =
  1,000,000).  Every price the code manipulates is parsed from a decimal
  string; for the magnitudes involved (under $1000, at most a few fractional
  digits) Python's binary floats compare exactly like the decimal values they
  denote, so exact fixed-point integers are a faithful model of the float
  comparisons in the source.  Decimal strings with more than six fractional
  digits are truncated at the sixth digit; Python floats carry a similar
  sub-micro representation error.
* `percent_off` values are held in tenths of a percent (so the decimal value
  `28.6` is the integer `286`); `round(x, 1)` is exact on this grid.
* Python's `round` (and pandas' `.round`) use round-half-to-even, modelled by
  `bankerRound`.
* Regex scans over a card's rendered text (`re.findall`/`re.search` results)
  and DOM sub-queries (`query_selector` results) are the card *observations*:
  they are fields of the per-store `Card` structures, listed in the order the
  scanning produces them.  All decision logic applied to those observations is
  translated from the Python source.
* Python `None`/falsiness is modelled with `Option` (plus explicit `= 0`
  checks where a numeric `0.0` is treated as missing by an `if not x:` test).
-/

/-! ## Python-style string primitives (over `List Char`) -/

/-- Numeric value of a decimal digit character. -/
def digitVal (c : Char) : ℕ := c.toNat - 48

/-- `int` of a decimal digit string (also Python's `int(...)` on digit runs). -/
def natOfDigits (cs : List Char) : ℕ := cs.foldl (fun n c => 10 * n + digitVal c) 0

/-- Is `p` a prefix of `cs`?  (Helper for Python's `in` substring test.) -/
def isPrefixChars : List Char → List Char → Bool
  | [], _ => true
  | _ :: _, [] => false
  | p :: ps, c :: cs => p = c && isPrefixChars ps cs

/-- Python's substring test `pat in s`, on character lists. -/
def containsChars (cs pat : List Char) : Bool :=
  match cs with
  | [] => isPrefixChars pat []
  | _ :: rest => isPrefixChars pat cs || containsChars rest pat

/-- Python's substring test `pat in s`. -/
def containsStr (s pat : String) : Bool := containsChars s.data pat.data

/-- Python's `str.strip()` on a character list. -/
def stripChars (cs : List Char) : List Char :=
  ((cs.dropWhile Char.isWhitespace).reverse.dropWhile Char.isWhitespace).reverse

/-- Python's `str.strip()`. -/
def pyStrip (s : String) : String := String.mk (stripChars s.data)

/-- Python's `str.lower()` (ASCII, which covers all strings the code compares). -/
def pyLower (s : String) : String := String.mk (s.data.map Char.toLower)

/-- Python's `str.startswith(c)` for a single character. -/
def strStartsWith (s : String) (c : Char) : Bool :=
  match s.data with
  | [] => false
  | h :: _ => h = c

/-- Python's `str.endswith(c)` for a single character. -/
def strEndsWith (s : String) (c : Char) : Bool :=
  match s.data.getLast? with
  | some d => d = c
  | none => false

/-- Split a character list on a separator character (Python `str.split(sep)`). -/
def splitOnChar (sep : Char) : List Char → List (List Char)
  | [] => [[]]
  | c :: cs =>
    let r := splitOnChar sep cs
    if c = sep then [] :: r
    else
      match r with
      | [] => [[c]]
      | h :: t => (c :: h) :: t

/-- Python's `str.split('\n')`. -/
def pySplitLines (s : String) : List String :=
  (splitOnChar (Char.ofNat 10) s.data).map String.mk

/-- The digit characters of a string, in order (`re.sub(r'[^\d]', '', s)`). -/
def digitsOnly (s : String) : List Char := s.data.filter Char.isDigit

/-- First run of digits in a string — `re.search(r'\d+', s)`. -/
def firstDigitRun (s : String) : Option String :=
  let rest := s.data.dropWhile (fun c => !c.isDigit)
  if rest.isEmpty then none else some (String.mk (rest.takeWhile Char.isDigit))

/-- Search for the literal `key` followed by at least one digit and return the
digit run — models regexes such as `/product/(\d+)` and `post-(\d+)`. -/
def searchKeyDigits (key : List Char) : List Char → Option String
  | [] => none
  | c :: rest =>
    if isPrefixChars key (c :: rest) then
      let ds := ((c :: rest).drop key.length).takeWhile Char.isDigit
      if ds.isEmpty then searchKeyDigits key rest else some (String.mk ds)
    else searchKeyDigits key rest

/-- Join strings with a separator (Python `sep.join(strs)`), as characters. -/
def joinWith (sep : List Char) : List String → List Char
  | [] => []
  | [s] => s.data
  | s :: rest => s.data ++ sep ++ joinWith sep rest

/-- Does the character list contain a run of at least three consecutive ASCII
letters?  (`re.search(r'[a-zA-Z]{3,}', s)`.) -/
def hasTripleAlpha : List Char → Bool
  | [] => false
  | a :: rest =>
    match rest with
    | b :: c :: _ => (a.isAlpha && b.isAlpha && c.isAlpha) || hasTripleAlpha rest
    | _ => false

/-! ## Exact decimal arithmetic -/

/-- Round-half-to-even integer rounding of the quotient `x / d` (for `d > 0`):
the semantics of Python's `round` and pandas' `.round` on exact values. -/
def bankerRound (x d : ℤ) : ℤ :=
  if 2 * (x % d) < d then x / d
  else if d < 2 * (x % d) then x / d + 1
  else if (x / d) % 2 = 0 then x / d else x / d + 1

/-- Python `round(v, 2)` on a micro-dollar amount. -/
def roundCents (x : ℤ) : ℤ := bankerRound x 10000 * 10000

/-- Pandas `((orig - sale) / orig * 100).round(1)` in tenths of a percent:
round-half-to-even of `1000 * (orig - sale) / orig`. -/
def pctTenths (orig sale : ℤ) : ℤ := bankerRound (1000 * (orig - sale)) orig

/-- A value parsed from a dollars group and a two-digit cents group
(`float(f"{int(d)}.{cc}")`), in micro-dollars. -/
def priceOf (d c : ℕ) : ℤ := ((d : ℤ) * 100 + (c : ℤ)) * 10000

/-- Micro-dollar value of a fractional digit string (digits after the decimal
point); digits beyond the sixth are truncated. -/
def fracScaled (cs : List Char) : ℤ :=
  (natOfDigits (cs.take 6) : ℤ) * (10 : ℤ) ^ (6 - min cs.length 6)

/-- Python numeric truthiness: `None` and `0.0` are falsy. -/
def truthy (o : Option ℤ) : Option ℤ :=
  o.bind (fun v => if v = 0 then none else some v)

theorem bankerRound_cases (x d : ℤ) :
    bankerRound x d = x / d ∨ bankerRound x d = x / d + 1 := by
  unfold bankerRound
  split_ifs <;> simp

theorem bankerRound_nonneg {x d : ℤ} (hx : 0 ≤ x) (hd : 0 < d) :
    0 ≤ bankerRound x d := by
  have hq : 0 ≤ x / d := Int.ediv_nonneg hx (le_of_lt hd)
  rcases bankerRound_cases x d with h | h <;> omega

theorem bankerRound_nonpos {x d : ℤ} (hx : x ≤ 0) (hd : 0 < d) :
    bankerRound x d ≤ 0 := by
  rcases lt_or_eq_of_le hx with hlt | heq
  · have hq : x / d < 0 := Int.ediv_neg' hlt hd
    rcases bankerRound_cases x d with h | h <;> omega
  · subst heq
    unfold bankerRound
    simp [hd]

theorem bankerRound_mul_cancel {d : ℤ} (k : ℤ) (hd : 0 < d) :
    bankerRound (k * d) d = k := by
  unfold bankerRound
  have h1 : k * d / d = k := Int.mul_ediv_cancel k (ne_of_gt hd)
  have h2 : k * d % d = 0 := Int.emod_eq_zero_of_dvd ⟨k, mul_comm k d⟩
  rw [h1, h2]
  simp [hd]

theorem mul_bankerRound_le {x d : ℤ} (hd : 0 < d) :
    d * bankerRound x d ≤ x + d := by
  have hmod := Int.ediv_add_emod x d
  have hr0 : 0 ≤ x % d := Int.emod_nonneg x (ne_of_gt hd)
  have hrd : x % d < d := Int.emod_lt_of_pos x hd
  rcases bankerRound_cases x d with h | h <;> rw [h] <;> nlinarith

theorem roundCents_of_cents {x : ℤ} (h : (10000 : ℤ) ∣ x) : roundCents x = x := by
  obtain ⟨k, rfl⟩ := h
  rw [roundCents, mul_comm (10000 : ℤ) k, bankerRound_mul_cancel k (by norm_num)]

theorem roundCents_nonneg {x : ℤ} (h : 0 ≤ x) : 0 ≤ roundCents x := by
  have := bankerRound_nonneg h (show (0:ℤ) < 10000 by norm_num)
  unfold roundCents
  positivity

theorem roundCents_nonpos {x : ℤ} (h : x ≤ 0) : roundCents x ≤ 0 := by
  have h1 := bankerRound_nonpos h (show (0:ℤ) < 10000 by norm_num)
  unfold roundCents
  nlinarith

/-- Bound used for the per-record percentage invariant: when both prices are
positive the recomputed discount percentage is at most 100.0%. -/
theorem pctTenths_le_1000 {o s : ℤ} (ho : 0 < o) (hs : 0 < s) :
    pctTenths o s ≤ 1000 := by
  unfold pctTenths
  by_contra hgt
  push_neg at hgt
  have hb := mul_bankerRound_le (x := 1000 * (o - s)) ho
  have h1 : o * 1001 ≤ o * bankerRound (1000 * (o - s)) o :=
    mul_le_mul_of_nonneg_left (by omega) (le_of_lt ho)
  nlinarith

/-! ## Shared name-extraction strategy (New World and PAK'nSAVE scrapers)

`extract_name` is textually identical in `automated_scraper_NW_FIXED_V3.py`
and `automated_scraper_PS_FIXED_V3.py`: anchors first, then headings, then a
name/title-class element (whose text is returned unvalidated). -/

/-- Skip words of the anchor strategy (`skip_words` in the source). -/
def nwSkipWords : List String :=
  ["add", "view", "cart", "more", "details", "shop", "buy"]

/-- One anchor candidate: stripped text of length `> 5`, not starting with
`$`, containing no skip word (case-insensitive). -/
def anchorCandidate (t : String) : Option String :=
  let s := pyStrip t
  if 5 < s.length && !strStartsWith s '$' &&
      !nwSkipWords.any (fun w => containsStr (pyLower s) w) then some s else none

/-- One heading candidate: non-empty text whose stripped form has length `> 5`. -/
def headingCandidate (o : Option String) : Option String :=
  o.bind fun t => if 5 < (pyStrip t).length then some (pyStrip t) else none

/-- The anchor → heading → name-class strategy chain shared by the New World
and PAK'nSAVE `extract_name`. -/
def anchorHeadingName (anchorTexts : List String)
    (headingTexts : List (Option String)) (nameClassText : Option String) :
    Option String :=
  match anchorTexts.findSome? anchorCandidate with
  | some n => some n
  | none =>
    match headingTexts.findSome? headingCandidate with
    | some n => some n
    | none => nameClassText

namespace NW

/-- Observations of one New World product card, as produced by the DOM
queries and regex scans of `automated_scraper_NW_FIXED_V3.py`:

* `anchorTexts`: inner texts of the card's `a` elements, in order;
* `headingTexts`: first-match text for each of the tags `h3, h2, h1, h4`;
* `nameClassText`: text of the first name/title-class element, if any;
* `eaMatches`: `re.findall` groups of the "ea/each"-suffixed price regex;
* `kgMatches`: groups of the "kg"-suffixed price regex;
* `perKgMatches`: groups of the `$xx.xx/1kg` reference-price regex;
* `genericMatches`: groups of the generic split-price-token regex
  `(?<!\d)(\d{1,3})[.,\s]+(\d{2})(?!\d)`;
* `clubBadgeMatch`: groups of `re.search(r'club\s*deal\s*(\d{1,3})[.,\s]+(\d{2})(?!\d)')`;
* `is_club_deal`, `is_super_saver`: results of the badge classifiers
  (DOM/text predicates, taken as observations);
* `skuAttrs`: values of the attributes `data-stockcode, data-sku,
  data-product-id, data-testid`;
* `brandText`: text of the first brand-class element, if any. -/
structure Card where
  anchorTexts : List String
  headingTexts : List (Option String)
  nameClassText : Option String
  eaMatches : List (ℕ × ℕ)
  kgMatches : List (ℕ × ℕ)
  perKgMatches : List (ℕ × ℕ)
  genericMatches : List (ℕ × ℕ)
  clubBadgeMatch : Option (ℕ × ℕ)
  is_club_deal : Bool
  is_super_saver : Bool
  skuAttrs : List (Option String)
  brandText : Option String
  scraped_at : String

/-- `to_float(dollars, cents)` of the source, in micro-dollars. -/
def to_float (m : ℕ × ℕ) : ℤ := priceOf m.1 m.2

/-- `0.5 <= p <= 500` in micro-dollars. -/
def inBounds (p : ℤ) : Bool := 500000 ≤ p && p ≤ 500000000

/-- Result dictionary of `extract_all_prices`. -/
structure PriceData where
  sale_price : ℤ
  original_price : ℤ
  unit_type : String
  price_per_kg : Option ℤ
  deriving DecidableEq

/-- The Club-Deal fallback heuristic (`extract_all_prices`, step 6, `else`
branch): all in-range generic prices, minus those within `1e-6` of the
recorded `price_per_kg`, kept only if below `original_price - 0.01`; the
minimum of the remainder, or `orig` if none remains. -/
def clubFallbackPrice (generic : List ℤ) (ppk : Option ℤ) (orig : ℤ) : ℤ :=
  let inRange := generic.filter inBounds
  let noRef :=
    match ppk with
    | some k => inRange.filter (fun p => 1 < (p - k).natAbs)
    | none => inRange
  let discounted := noRef.filter (fun p => p < orig - 10000)
  match discounted.min? with
  | some m => m
  | none => orig

/-- Step 4 of `extract_all_prices` (`automated_scraper_NW_FIXED_V3.py`,
lines 199-225): decide `unit_type` and the base/original price, preferring
the **last** ea-suffixed token, then the **last** kg-suffixed token, then
the **maximum** in-range generic token (`None` when no generic token is in
range). -/
def unitPrice (card : Card) : Option (String × ℤ) :=
  match (card.eaMatches.map to_float).getLast? with
  | some p => some ("ea", p)
  | none =>
    match (card.kgMatches.map to_float).getLast? with
    | some p => some ("kg", p)
    | none =>
      match ((card.genericMatches.map to_float).filter inBounds).max? with
      | some p => some ("ea", p)
      | none => none

/-- Step 5 of `extract_all_prices` (lines 233-239): `price_per_kg` is the
first `/kg` reference token, or the unit price itself when sold by kg. -/
def refPerKg (card : Card) (ut : String) (op : ℤ) : Option ℤ :=
  match (card.perKgMatches.map to_float).head? with
  | some p => some p
  | none => if ut = "kg" then some op else none

/-- Step 6 of `extract_all_prices` (lines 241-265): the Club-Deal sale
price.  The badge-adjacent token, when present and in range, is accepted
exactly when strictly below the original price (otherwise the original
price stands, with no fallback); when the token is absent or out of range
the fallback heuristic runs.  Without a Club-Deal badge the sale price is
the original price. -/
def saleWithClub (card : Card) (ppk : Option ℤ) (op : ℤ) : ℤ :=
  if card.is_club_deal then
    match card.clubBadgeMatch with
    | some m =>
      if inBounds (to_float m) then (if to_float m < op then to_float m else op)
      else clubFallbackPrice (card.genericMatches.map to_float) ppk op
    | none => clubFallbackPrice (card.genericMatches.map to_float) ppk op
  else op

/-- `extract_all_prices` of `automated_scraper_NW_FIXED_V3.py`: steps 4-6
above, then the final sanity check `0.5 <= sale_price <= 500`.  (The
source's `is None` check before it is vacuous: every branch of step 4 that
reaches this point has set both prices.) -/
def extract_all_prices (card : Card) : Option PriceData :=
  match unitPrice card with
  | none => none
  | some (ut, op) =>
    let ppk := refPerKg card ut op
    let sp := saleWithClub card ppk op
    if inBounds sp then
      some { sale_price := sp, original_price := op, unit_type := ut,
             price_per_kg := ppk }
    else none

/-- A record built by the New World scraper. -/
structure Product where
  store : String
  sku : Option String
  name : String
  brand : Option String
  sale_price : ℤ
  original_price : ℤ
  price_per_kg : Option ℤ
  unit_type : String
  saving : ℤ
  is_club_deal : Bool
  is_super_saver : Bool
  scraped_at : String
  deriving DecidableEq

/-- `extract_name` of the New World scraper. -/
def extract_name (card : Card) : Option String :=
  anchorHeadingName card.anchorTexts card.headingTexts card.nameClassText

/-- `extract_sku`: first attribute with a digit run. -/
def extract_sku (card : Card) : Option String :=
  card.skuAttrs.findSome? (fun o => o.bind firstDigitRun)

/-- `parse_product_card` of the New World scraper: `None` when the name is
missing/empty or price extraction fails; otherwise the record, with
`saving = original_price - sale_price` (unclamped). -/
def parse_product_card (card : Card) : Option Product :=
  match extract_name card with
  | none => none
  | some name =>
    if name = "" then none
    else
      match extract_all_prices card with
      | none => none
      | some pd =>
        some { store := "newworld", sku := extract_sku card, name := name,
               brand := card.brandText, sale_price := pd.sale_price,
               original_price := pd.original_price,
               price_per_kg := pd.price_per_kg, unit_type := pd.unit_type,
               saving := pd.original_price - pd.sale_price,
               is_club_deal := card.is_club_deal,
               is_super_saver := card.is_super_saver,
               scraped_at := card.scraped_at }

/-- A row of the cleaned New World CSV (`cleanup_newworld_v3.py` adds the
`percent_off` column to the scraper's columns). -/
structure CleanRow where
  sku : Option String
  name : String
  brand : Option String
  sale_price : ℤ
  original_price : ℤ
  price_per_kg : Option ℤ
  unit_type : String
  saving : ℤ
  percent_off : ℤ
  is_club_deal : Bool
  is_super_saver : Bool
  scraped_at : String
  deriving DecidableEq

/-- A scraper record viewed as a cleanup row; the scraper CSV has no
`percent_off` column, the assignment in the cleanup creates it. -/
def toCleanRow (p : Product) : CleanRow :=
  { sku := p.sku, name := p.name, brand := p.brand,
    sale_price := p.sale_price, original_price := p.original_price,
    price_per_kg := p.price_per_kg, unit_type := p.unit_type,
    saving := p.saving, percent_off := 0,
    is_club_deal := p.is_club_deal, is_super_saver := p.is_super_saver,
    scraped_at := p.scraped_at }

/-- The recompute step of `clean_newworld` (lines 49-58):
`saving = (orig - sale).round(2)`, `percent_off = ((orig - sale)/orig*100).round(1)`,
then negative values of either column are clamped to `0`.  (For
`original_price = 0` pandas produces NaN/inf where `bankerRound` yields a
junk integer; every original price the scraper emits is positive, and the
claims are stated under that hypothesis.) -/
def recompute (r : CleanRow) : CleanRow :=
  { r with
    saving := max 0 (roundCents (r.original_price - r.sale_price)),
    percent_off := max 0 (pctTenths r.original_price r.sale_price) }

/-- `clean_newworld`: drop rows with `sale_price < 3.5`, then recompute the
derived columns. -/
def clean_newworld (rows : List Product) : List CleanRow :=
  ((rows.filter (fun r => 3500000 ≤ r.sale_price)).map toCleanRow).map recompute

end NW

namespace WW

/-- Observations of one Woolworths product card
(`automated_scraper_WW_FIXED.py`):

* `headingTexts`: first-match text for each of `h3, h2, h1, h4`;
* `productLinkText`: text of the first `a[class*="product"]` element;
* `ariaLabel`, `titleAttr`: card attributes;
* `dollarsText`, `centsText`: texts of the price-dollars / price-cents
  elements (strategy 1), when both exist;
* `priceElemTexts`: first-match texts for the four strategy-2 selectors, in
  order;
* `fullText`: the card's full rendered text;
* `textMatches`: `re.findall(r'\$(\d+)\.(\d{2})')` on `fullText`, as the
  matched digit strings (strategy 3);
* `wasMatch`: groups of `re.search(r'was\s+\$(\d+)\.(\d{2})')` on `fullText`;
* `strikeTexts`: first-match texts for the five strike-through selectors;
* `skuAttrs`: the four sku attribute values; `hrefResolved`: the card's
  `href` or, failing that, its first link's `href`. -/
structure Card where
  headingTexts : List (Option String)
  productLinkText : Option String
  ariaLabel : Option String
  titleAttr : Option String
  dollarsText : Option String
  centsText : Option String
  priceElemTexts : List (Option String)
  fullText : String
  textMatches : List (String × String)
  wasMatch : Option (ℕ × ℕ)
  strikeTexts : List (Option String)
  skuAttrs : List (Option String)
  hrefResolved : Option String
  brandText : Option String
  scraped_at : String

/-- Full-string match of `^\$?\d+[\s\n.]\d+$` (`re.match` with an end
anchor): optional `$`, digits, one space/newline/dot, digits. -/
def priceLikeFull (cs : List Char) : Bool :=
  let cs1 :=
    match cs with
    | '$' :: rest => rest
    | _ => cs
  let d1 := cs1.takeWhile Char.isDigit
  let rest := cs1.dropWhile Char.isDigit
  match rest with
  | sep :: rest2 =>
    !d1.isEmpty && (sep.isWhitespace || sep = '.') && !rest2.isEmpty &&
      rest2.all Char.isDigit
  | [] => false

/-- `is_valid_product_name` of the Woolworths scraper: stripped length at
least 10, not starting with `$`, not digit-dominated, not a bare price
pattern `^\$?\d+[\s\n.]\d+$`, and containing three consecutive letters. -/
def is_valid_product_name (t : String) : Bool :=
  let s := pyStrip t
  if t = "" || s.length < 10 then false
  else if strStartsWith s '$' then false
  else if 0 < (s.data.filter Char.isDigit).length &&
      s.length < 2 * (s.data.filter Char.isDigit).length then false
  else if priceLikeFull s.data then false
  else if !hasTripleAlpha s.data then false
  else true

/-- `extract_name`: headings, then product-link lines, then `aria-label`,
then `title`, each gated by `is_valid_product_name`. -/
def extract_name (card : Card) : Option String :=
  match card.headingTexts.findSome? (fun o =>
      o.bind fun t => if is_valid_product_name t then some (pyStrip t) else none) with
  | some n => some n
  | none =>
    match card.productLinkText.bind (fun t =>
        (pySplitLines t).findSome? fun line =>
          if is_valid_product_name line then some (pyStrip line) else none) with
    | some n => some n
    | none =>
      match card.ariaLabel.bind (fun t =>
          if is_valid_product_name t then some (pyStrip t) else none) with
      | some n => some n
      | none =>
        card.titleAttr.bind fun t =>
          if is_valid_product_name t then some (pyStrip t) else none

/-- Strategy-1 price: `float(f"{dollars}.{cents if cents else '00'}")` on the
digit characters of the two elements, in micro-dollars. -/
def strat1Price (ds cs : List Char) : ℤ :=
  (natOfDigits ds : ℤ) * 1000000 + fracScaled cs

/-- First match of `\$?(\d+)[\s.]?(\d{2})?` in an element text: the first
digit run, and the two digits following a single space/dot separator when
present (strategy 2). -/
def searchLoosePrice : List Char → Option (List Char × Option (Char × Char))
  | [] => none
  | c :: rest =>
    if c.isDigit then
      let run := (c :: rest).takeWhile Char.isDigit
      let after := (c :: rest).dropWhile Char.isDigit
      match after with
      | s :: a :: b :: _ =>
        if (s.isWhitespace || s = '.') && a.isDigit && b.isDigit then
          some (run, some (a, b))
        else some (run, none)
      | _ => some (run, none)
    else searchLoosePrice rest

/-- Micro-dollar value of a strategy-2 match (`group(2)` defaults to `"00"`). -/
def loosePriceValue (run : List Char) (cents : Option (Char × Char)) : ℤ :=
  (natOfDigits run : ℤ) * 1000000 +
    (match cents with
     | some (a, b) => ((10 * digitVal a + digitVal b : ℕ) : ℤ) * 10000
     | none => 0)

/-- First match of `\$?(\d+)\.(\d{2})` in an element text (strike-through
price search of `extract_original_price`). -/
def searchPlainPrice : List Char → Option (List Char × Char × Char)
  | [] => none
  | c :: rest =>
    if c.isDigit then
      let run := (c :: rest).takeWhile Char.isDigit
      let after := (c :: rest).dropWhile Char.isDigit
      match after with
      | '.' :: a :: b :: _ =>
        if a.isDigit && b.isDigit then some (run, a, b) else searchPlainPrice rest
      | _ => searchPlainPrice rest
    else searchPlainPrice rest

/-- Strategy 1 of `extract_pack_price` (lines 170-188): the dollars/cents
element pair, accepted when `1 < price < 500`. -/
def strategy1 (card : Card) : Option ℤ :=
  match card.dollarsText, card.centsText with
  | some dt, some ct =>
    let ds := digitsOnly dt
    if ds.isEmpty then none
    else
      let price := strat1Price ds (digitsOnly ct)
      if 1000000 < price && price < 500000000 then some price else none
  | _, _ => none

/-- Strategy 2 of `extract_pack_price` (lines 190-214): the four generic
price selectors in order; a match is accepted when its value is not part of
a `for $<dollars>` multi-buy phrase in the card text and `1 < price < 500`. -/
def strategy2 (card : Card) : Option ℤ :=
  card.priceElemTexts.findSome? fun o =>
    o.bind fun t =>
      match searchLoosePrice t.data with
      | none => none
      | some (run, cents) =>
        let price := loosePriceValue run cents
        if !containsStr card.fullText (String.mk (("for $").data ++ run)) &&
            1000000 < price && price < 500000000 then some price
        else none

/-- The strategy-3 candidate prices (lines 216-241): every `$d.cc` token of
the full text that is not part of a `for $d.cc` multi-buy phrase, is at most
`$100`, and lies in `[1, 500]`. -/
def strat3Candidates (card : Card) : List ℤ :=
  card.textMatches.filterMap fun m =>
    let price := (natOfDigits m.1.data : ℤ) * 1000000 +
      (natOfDigits m.2.data : ℤ) * 10000
    if containsStr card.fullText
        (String.mk (("for $").data ++ m.1.data ++ ('.' :: m.2.data))) then none
    else if 100000000 < price then none
    else if price < 1000000 || 500000000 < price then none
    else some price

/-- `extract_pack_price` of the Woolworths scraper: strategy 1, then
strategy 2, then the **minimum** of the strategy-3 candidates. -/
def extract_pack_price (card : Card) : Option ℤ :=
  match strategy1 card with
  | some p => some p
  | none =>
    match strategy2 card with
    | some p => some p
    | none => (strat3Candidates card).min?

/-- `extract_original_price`: the `was $d.cc` text match, then the five
strike-through selectors. -/
def extract_original_price (card : Card) : Option ℤ :=
  match card.wasMatch with
  | some m => some (priceOf m.1 m.2)
  | none =>
    card.strikeTexts.findSome? fun o =>
      o.bind fun t =>
        (searchPlainPrice t.data).map fun r =>
          (natOfDigits r.1 : ℤ) * 1000000 +
            ((10 * digitVal r.2.1 + digitVal r.2.2 : ℕ) : ℤ) * 10000

/-- `extract_sku`: attribute digit runs, then `/product/(\d+)` in the href. -/
def extract_sku (card : Card) : Option String :=
  match card.skuAttrs.findSome? (fun o => o.bind firstDigitRun) with
  | some s => some s
  | none => card.hrefResolved.bind fun h => searchKeyDigits ("/product/").data h.data

/-- `extract_brand`: brand-class element text, else `"Woolworths"` when the
name contains it. -/
def extract_brand (card : Card) (name : String) : Option String :=
  match card.brandText with
  | some b => some b
  | none =>
    if containsStr (pyLower name) ("woolworths") then some ("Woolworths") else none

/-- A record built by the Woolworths scraper. -/
structure Product where
  store : String
  sku : Option String
  name : String
  brand : Option String
  sale_price : ℤ
  original_price : ℤ
  saving : ℤ
  scraped_at : String
  deriving DecidableEq

/-- `parse_product_card` of the Woolworths scraper: `None` when name or pack
price is missing; `original_price` falls back to `sale_price` when the
was-price is missing (or parses as the falsy `0.0`); `saving` is
`round(orig - sale, 2)` when `orig > sale`, else `0`. -/
def parse_product_card (card : Card) : Option Product :=
  match extract_name card with
  | none => none
  | some name =>
    match extract_pack_price card with
    | none => none
    | some sp =>
      let op :=
        match extract_original_price card with
        | some v => if v = 0 then sp else v
        | none => sp
      some { store := "woolworths", sku := extract_sku card, name := name,
             brand := extract_brand card name, sale_price := sp,
             original_price := op,
             saving := if sp < op then roundCents (op - sp) else 0,
             scraped_at := card.scraped_at }

/-- A row of the cleaned Woolworths CSV (`cleanup_woolworths.py` adds the
badge columns, defaulted to false, and the `percent_off` column). -/
structure CleanRow where
  sku : Option String
  name : String
  brand : Option String
  sale_price : ℤ
  original_price : ℤ
  saving : ℤ
  percent_off : ℤ
  is_club_price : Bool
  is_on_special : Bool
  scraped_at : String
  deriving DecidableEq

/-- `clean_woolworths`: drop rows with `sale_price < 5`, then set
`saving = orig - sale` (no rounding, **no clamping**) and
`percent_off = ((orig - sale)/orig*100).round(1)` (no clamping). -/
def clean_woolworths (rows : List Product) : List CleanRow :=
  (rows.filter (fun r => 5000000 ≤ r.sale_price)).map fun r =>
    { sku := r.sku, name := r.name, brand := r.brand,
      sale_price := r.sale_price, original_price := r.original_price,
      saving := r.original_price - r.sale_price,
      percent_off := pctTenths r.original_price r.sale_price,
      is_club_price := false, is_on_special := false,
      scraped_at := r.scraped_at }

end WW

namespace MB

/-- Observations of one Mad Butcher product card (`automated_scraper_MB.py`):

* `titleText`: text of the first WooCommerce title/heading element;
* `linkText`: text of the first product-link element;
* `anchorTexts`: inner texts of all `a` elements;
* `insText`: text of the first sale-price element
  (`.price ins .woocommerce-Price-amount, .price .amount, bdi`);
* `regularText`: text of the first regular-price element
  (`.price, .woocommerce-Price-amount, bdi`);
* `delText`: text of the first strike-through price element;
* `fullText`: the card's full rendered text;
* `textMatches`: `re.findall(r'\$\s*(\d+)\.(\d{2})')` on `fullText`;
* `dataAttrs`: values of `data-product-id, data-product_id, data-id`;
* `classAttr`: the card's `class` attribute. -/
structure Card where
  titleText : Option String
  linkText : Option String
  anchorTexts : List String
  insText : Option String
  regularText : Option String
  delText : Option String
  fullText : String
  textMatches : List (ℕ × ℕ)
  dataAttrs : List (Option String)
  classAttr : Option String
  scraped_at : String

/-- The boilerplate phrases rejected by the Mad Butcher name validator. -/
def invalid_phrases : List String :=
  ["christmas hours", "opening hours", "holiday hours", "specials!",
   "specials", "closed", "contact us", "add to cart", "select options",
   "view details", "shop now"]

/-- `is_valid_product_name` of the Mad Butcher scraper: stripped length at
least 5, no boilerplate phrase (case-insensitive), not starting with `$`,
and not a short exclamation. -/
def is_valid_product_name (t : String) : Bool :=
  if t = "" || (pyStrip t).length < 5 then false
  else if invalid_phrases.any (fun p => containsStr (pyLower t) p) then false
  else if strStartsWith t '$' then false
  else if t.length < 12 && strEndsWith t '!' then false
  else true

/-- `extract_name`: title element, then product-link lines (stripped before
validation), then any anchor (stripped before validation). -/
def extract_name (card : Card) : Option String :=
  match card.titleText.bind (fun t =>
      if is_valid_product_name t then some (pyStrip t) else none) with
  | some n => some n
  | none =>
    match card.linkText.bind (fun t =>
        ((pySplitLines t).map pyStrip).findSome? fun line =>
          if is_valid_product_name line then some line else none) with
    | some n => some n
    | none =>
      card.anchorTexts.findSome? fun t =>
        let s := pyStrip t
        if is_valid_product_name s then some s else none

/-- `parse_price_text`: keep digits and dots, then Python `float`; `None` on
a parse failure (empty string, bare dot, two dots). -/
def parse_price_text (t : String) : Option ℤ :=
  let clean := t.data.filter fun c => c.isDigit || c = '.'
  match splitOnChar '.' clean with
  | [ds] => if ds.isEmpty then none else some ((natOfDigits ds : ℤ) * 1000000)
  | [ds, fs] =>
    if ds.isEmpty && fs.isEmpty then none
    else some ((natOfDigits ds : ℤ) * 1000000 + fracScaled fs)
  | _ => none

/-- Result dictionary of the Mad Butcher `extract_price`. -/
structure PriceData where
  sale_price : ℤ
  original_price : ℤ
  unit_type : String
  price_per_kg : Option ℤ
  deriving DecidableEq

/-- `extract_price` of the Mad Butcher scraper: sale price from the
WooCommerce `ins` element, else the regular price element, else the first
`$d.cc` text token (a parsed `0.0` counts as missing at each `if not
sale_price:` test); original price from the `del` element, defaulting to the
sale price; reject when the sale price is missing, `0.0`, below `$1` or
above `$500`; sold-by-kg when the text mentions `kg`. -/
def extract_price (card : Card) : Option PriceData :=
  let s0 := truthy (card.insText.bind parse_price_text)
  let s1 :=
    match s0 with
    | some v => some v
    | none => truthy (card.regularText.bind parse_price_text)
  let s2 :=
    match s1 with
    | some v => some v
    | none => (card.textMatches.head?).map fun m => priceOf m.1 m.2
  match s2 with
  | none => none
  | some sp =>
    if sp = 0 || sp < 1000000 || 500000000 < sp then none
    else
      let op :=
        match truthy (card.delText.bind parse_price_text) with
        | some v => v
        | none => sp
      if containsStr (pyLower card.fullText) ("kg") then
        some { sale_price := sp, original_price := op, unit_type := "kg",
               price_per_kg := some sp }
      else
        some { sale_price := sp, original_price := op, unit_type := "ea",
               price_per_kg := none }

/-- `extract_sku`: a non-empty data attribute verbatim (`if val:` skips
empty strings), else `post-(\d+)` from the class attribute. -/
def extract_sku (card : Card) : Option String :=
  match card.dataAttrs.findSome? (fun o =>
      o.bind fun v => if v = "" then none else some v) with
  | some v => some v
  | none => card.classAttr.bind fun s => searchKeyDigits ("post-").data s.data

/-- A record built by the Mad Butcher scraper. -/
structure Product where
  store : String
  sku : Option String
  name : String
  brand : Option String
  sale_price : ℤ
  original_price : ℤ
  price_per_kg : Option ℤ
  unit_type : String
  saving : ℤ
  scraped_at : String
  deriving DecidableEq

/-- `parse_product_card` of the Mad Butcher scraper: `None` when name or
price extraction fails, otherwise the record with
`saving = original_price - sale_price` (unclamped). -/
def parse_product_card (card : Card) : Option Product :=
  match extract_name card with
  | none => none
  | some name =>
    match extract_price card with
    | none => none
    | some pd =>
      some { store := "madbutcher", sku := extract_sku card, name := name,
             brand := some ("Mad Butcher"), sale_price := pd.sale_price,
             original_price := pd.original_price,
             price_per_kg := pd.price_per_kg, unit_type := pd.unit_type,
             saving := pd.original_price - pd.sale_price,
             scraped_at := card.scraped_at }

/-- A row of the cleaned Mad Butcher CSV, as produced by
`cleanup_madbutcher.py` (which renames `sale_price` to `price` and adds
`badge_type` and `percent_off`); the master merge reads these columns. -/
structure CleanRow where
  sku : Option String
  name : String
  brand : Option String
  price : ℤ
  original_price : ℤ
  price_per_kg : Option ℤ
  unit_type : String
  saving : ℤ
  percent_off : ℤ
  badge_type : Option String
  scraped_at : String
  deriving DecidableEq

end MB

namespace PS

/-- Observations of one PAK'nSAVE product card
(`automated_scraper_PS_FIXED_V3.py`):

* `anchorTexts`, `headingTexts`, `nameClassText`: as for New World;
* `unitMatches`: groups of `(\d+)[.,\s]*(\d{2})\s*(ea|kg|each)`;
* `perKgMatches`: the `$d.cc/1kg` reference matches, as dollars/cents;
* `allPriceMatches`: groups of the fallback regex `(\d+)\.(\d{2})`;
* the three badge flags are the classifier results;
* `idAttrs`: values of `data-stockcode, data-sku, data-product-id,
  data-testid`. -/
structure Card where
  anchorTexts : List String
  headingTexts : List (Option String)
  nameClassText : Option String
  unitMatches : List (ℕ × ℕ × String)
  perKgMatches : List (ℕ × ℕ)
  allPriceMatches : List (ℕ × ℕ)
  is_everyday_low : Bool
  is_extra_low : Bool
  is_super_deal : Bool
  idAttrs : List (Option String)
  brandText : Option String
  scraped_at : String

/-- `extract_name` of the PAK'nSAVE scraper (same strategy chain as New
World). -/
def extract_name (card : Card) : Option String :=
  anchorHeadingName card.anchorTexts card.headingTexts card.nameClassText

/-- Result dictionary of the PAK'nSAVE `extract_all_prices`. -/
structure PriceData where
  price : ℤ
  price_per_kg : Option ℤ
  unit_type : String
  deriving DecidableEq

/-- `extract_all_prices` of the PAK'nSAVE scraper: the first unit-suffixed
token is the displayed price (unit `kg` when the suffix mentions kg), with
the first `/kg` reference as `price_per_kg`; with no unit token, the first
generic `d.cc` token is used when strictly inside `(0.5, 500)`; reject
otherwise. -/
def extract_all_prices (card : Card) : Option PriceData :=
  match card.unitMatches.head? with
  | none =>
    match card.allPriceMatches.head? with
    | some m =>
      let p := priceOf m.1 m.2
      if 500000 < p && p < 500000000 then
        some { price := p, price_per_kg := none, unit_type := "ea" }
      else none
    | none => none
  | some (d, c, u) =>
    let p := priceOf d c
    let ut := if containsStr (pyLower u) ("kg") then "kg" else "ea"
    let ppk := (card.perKgMatches.head?).map fun m => priceOf m.1 m.2
    if !(500000 < p && p < 500000000) then none
    else some { price := p, price_per_kg := ppk, unit_type := ut }

/-- `extract_product_id`: first attribute with a digit run. -/
def extract_product_id (card : Card) : Option String :=
  card.idAttrs.findSome? fun o => o.bind firstDigitRun

/-- A record built by the PAK'nSAVE scraper: no separate sale/original
price; `promo_price` duplicates `price` and `saving` is `0.0`. -/
structure Product where
  store : String
  product_id : Option String
  name : String
  brand : Option String
  price : ℤ
  price_per_kg : Option ℤ
  unit_type : String
  promo_price : ℤ
  saving : ℤ
  is_everyday_low : Bool
  is_extra_low : Bool
  is_super_deal : Bool
  scraped_at : String
  deriving DecidableEq

/-- `parse_product_card` of the PAK'nSAVE scraper. -/
def parse_product_card (card : Card) : Option Product :=
  match extract_name card with
  | none => none
  | some name =>
    if name = "" then none
    else
      match extract_all_prices card with
      | none => none
      | some pd =>
        some { store := "paknsave", product_id := extract_product_id card,
               name := name, brand := card.brandText, price := pd.price,
               price_per_kg := pd.price_per_kg, unit_type := pd.unit_type,
               promo_price := pd.price, saving := 0,
               is_everyday_low := card.is_everyday_low,
               is_extra_low := card.is_extra_low,
               is_super_deal := card.is_super_deal,
               scraped_at := card.scraped_at }

/-- A row of the cleaned PAK'nSAVE CSV (`cleanup_paknsave_v3.py` adds
`badge_type` and `percent_off`). -/
structure CleanRow where
  product_id : Option String
  name : String
  brand : Option String
  price : ℤ
  price_per_kg : Option ℤ
  unit_type : String
  promo_price : ℤ
  saving : ℤ
  is_everyday_low : Bool
  is_extra_low : Bool
  is_super_deal : Bool
  badge_type : Option String
  percent_off : ℤ
  scraped_at : String
  deriving DecidableEq

/-- `get_badge_type` of `clean_paknsave`: comma-joined badge names, or
`None` when no badge is set. -/
def get_badge_type (r : Product) : Option String :=
  let badges :=
    (if r.is_everyday_low then ["EVERYDAY"] else []) ++
    (if r.is_extra_low then ["EXTRA"] else []) ++
    (if r.is_super_deal then ["SUPER"] else [])
  if badges.isEmpty then none
  else some (String.mk (joinWith (", ").data badges))

/-- `clean_paknsave`: drop rows with `price < 5`, add `badge_type`, and set
`percent_off = 0.0` for every row (PAK'nSAVE shows no original prices). -/
def clean_paknsave (rows : List Product) : List CleanRow :=
  (rows.filter (fun r => 5000000 ≤ r.price)).map fun r =>
    { product_id := r.product_id, name := r.name, brand := r.brand,
      price := r.price, price_per_kg := r.price_per_kg,
      unit_type := r.unit_type, promo_price := r.promo_price,
      saving := r.saving, is_everyday_low := r.is_everyday_low,
      is_extra_low := r.is_extra_low, is_super_deal := r.is_super_deal,
      badge_type := get_badge_type r, percent_off := 0,
      scraped_at := r.scraped_at }

end PS

/-! ## Master merge (`combine_csvs` of `daily_scrape_v4_combined.py`) -/

/-- A row of the master dataset: the columns of the per-store DataFrames
built in `combine_csvs` (in construction order). -/
structure MasterRow where
  store : String
  name : String
  brand : Option String
  price : ℤ
  original_price : ℤ
  price_per_kg : Option ℤ
  unit_type : String
  saving : ℤ
  percent_off : ℤ
  deal_type : Option String
  scraped_at : String
  deriving DecidableEq

/-- Projection of a cleaned New World row into the master schema
(`combine_csvs`, lines 58-70): `price` takes `sale_price`; `deal_type` is
`Club Deal`, else `Super Saver`, else null. -/
def projNewWorld (r : NW.CleanRow) : MasterRow :=
  { store := "New World", name := r.name, brand := r.brand,
    price := r.sale_price, original_price := r.original_price,
    price_per_kg := r.price_per_kg, unit_type := r.unit_type,
    saving := r.saving, percent_off := r.percent_off,
    deal_type :=
      if r.is_club_deal then some ("Club Deal")
      else if r.is_super_saver then some ("Super Saver")
      else none,
    scraped_at := r.scraped_at }

/-- Projection of a cleaned PAK'nSAVE row (`combine_csvs`, lines 77-89):
`original_price` takes `promo_price`; `deal_type` takes `badge_type`. -/
def projPaknsave (r : PS.CleanRow) : MasterRow :=
  { store := "PAK\x27nSAVE", name := r.name, brand := r.brand,
    price := r.price, original_price := r.promo_price,
    price_per_kg := r.price_per_kg, unit_type := r.unit_type,
    saving := r.saving, percent_off := r.percent_off,
    deal_type := r.badge_type, scraped_at := r.scraped_at }

/-- Projection of a cleaned Woolworths row (`combine_csvs`, lines 96-108):
`price_per_kg` is null and `unit_type` the constant `ea`; `deal_type` is
`Club Price`, else `On Special`, else null. -/
def projWoolworths (r : WW.CleanRow) : MasterRow :=
  { store := "Woolworths", name := r.name, brand := r.brand,
    price := r.sale_price, original_price := r.original_price,
    price_per_kg := none, unit_type := "ea",
    saving := r.saving, percent_off := r.percent_off,
    deal_type :=
      if r.is_club_price then some ("Club Price")
      else if r.is_on_special then some ("On Special")
      else none,
    scraped_at := r.scraped_at }

/-- Projection of a cleaned Mad Butcher row (`combine_csvs`, lines 115-127). -/
def projMadButcher (r : MB.CleanRow) : MasterRow :=
  { store := "Mad Butcher", name := r.name, brand := r.brand,
    price := r.price, original_price := r.original_price,
    price_per_kg := r.price_per_kg, unit_type := r.unit_type,
    saving := r.saving, percent_off := r.percent_off,
    deal_type := r.badge_type, scraped_at := r.scraped_at }

/-- `combine_csvs`: project each store's cleaned batch into the shared
schema and concatenate in the fixed order New World, PAK'nSAVE, Woolworths,
Mad Butcher (`pd.concat` with `ignore_index=True`, no deduplication). -/
def combine_csvs (nw : List NW.CleanRow) (ps : List PS.CleanRow)
    (ww : List WW.CleanRow) (mb : List MB.CleanRow) : List MasterRow :=
  nw.map projNewWorld ++ ps.map projPaknsave ++
    ww.map projWoolworths ++ mb.map projMadButcher

/-- The header of the master CSV: the column keys of the per-store frames in
`combine_csvs`, in construction order (preserved by `pd.concat` and
`to_csv`). -/
def masterColumns : List String :=
  ["store", "name", "brand", "price", "original_price", "price_per_kg",
   "unit_type", "saving", "percent_off", "deal_type", "scraped_at"]

/-- The header claimed in the specification, §6 (*Produced canonical
schema*), stated from the spec's words for comparison with `masterColumns`. -/
def specMasterColumns : List String :=
  ["store", "sku", "name", "brand", "price", "original_price", "price_per_kg",
   "unit_type", "saving", "percent_off", "deal_type", "scraped_at"]

/-! ## Supporting lemmas -/

instance intLeAntisymm : Std.Antisymm (fun (x1 x2 : ℤ) => x1 ≤ x2) :=
  ⟨@fun _ _ h1 h2 => le_antisymm h1 h2⟩

theorem int_min?_spec {l : List ℤ} {a : ℤ} (h : l.min? = some a) :
    a ∈ l ∧ ∀ b ∈ l, a ≤ b := by
  rw [List.min?_eq_some_iff] at h
  · exact h
  · exact fun a => le_refl a
  · exact fun a b => min_choice a b
  · exact fun a b c => le_min_iff

theorem int_max?_spec {l : List ℤ} {a : ℤ} (h : l.max? = some a) :
    a ∈ l ∧ ∀ b ∈ l, b ≤ a := by
  rw [List.max?_eq_some_iff] at h
  · exact h
  · exact fun a => le_refl a
  · exact fun a b => max_choice a b
  · exact fun a b c => max_le_iff

/-- What the New World Club-Deal fallback can return: either the original
price (no candidate survived the filters), or an in-range value more than
one cent below the original price and further than `1e-6` from the recorded
per-kg reference. -/
theorem clubFallback_spec (g : List ℤ) (k : Option ℤ) (o : ℤ) :
    NW.clubFallbackPrice g k o = o ∨
      (NW.clubFallbackPrice g k o < o - 10000 ∧
        NW.inBounds (NW.clubFallbackPrice g k o) = true ∧
        ∀ kk, k = some kk → 1 < (NW.clubFallbackPrice g k o - kk).natAbs) := by
  unfold NW.clubFallbackPrice
  cases k with
  | none =>
    cases hmin : ((g.filter NW.inBounds).filter (fun p => p < o - 10000)).min? with
    | none => left; simp only [hmin]
    | some m =>
      obtain ⟨hmem, -⟩ := int_min?_spec hmin
      rw [List.mem_filter] at hmem
      obtain ⟨hmem2, hlt⟩ := hmem
      rw [List.mem_filter] at hmem2
      simp only [hmin]
      right
      refine ⟨by simpa using hlt, hmem2.2, ?_⟩
      intro kk hkk
      exact absurd hkk (by simp)
  | some kk =>
    cases hmin : (((g.filter NW.inBounds).filter
        (fun p => 1 < (p - kk).natAbs)).filter (fun p => p < o - 10000)).min? with
    | none => left; simp only [hmin]
    | some m =>
      obtain ⟨hmem, -⟩ := int_min?_spec hmin
      rw [List.mem_filter] at hmem
      obtain ⟨hmem2, hlt⟩ := hmem
      rw [List.mem_filter] at hmem2
      obtain ⟨hmem3, hne⟩ := hmem2
      rw [List.mem_filter] at hmem3
      simp only [hmin]
      right
      refine ⟨by simpa using hlt, hmem3.2, ?_⟩
      intro kk2 hkk2
      injection hkk2 with h2
      subst h2
      simpa using hne

theorem clubFallback_le (g : List ℤ) (k : Option ℤ) (o : ℤ) :
    NW.clubFallbackPrice g k o ≤ o := by
  rcases clubFallback_spec g k o with h | ⟨h, -, -⟩ <;> omega

/-- The New World sale price never exceeds the original price. -/
theorem saleWithClub_le (card : NW.Card) (ppk : Option ℤ) (op : ℤ) :
    NW.saleWithClub card ppk op ≤ op := by
  unfold NW.saleWithClub
  split
  · split
    · split
      · split <;> omega
      · exact clubFallback_le _ _ _
    · exact clubFallback_le _ _ _
  · exact le_refl op

/-- Inversion of the New World `extract_all_prices`: a returned record is
exactly the step-4/5/6 data, gated by the final bounds check. -/
theorem nw_extract_iff {card : NW.Card} {pd : NW.PriceData} :
    NW.extract_all_prices card = some pd ↔
      ∃ ut op, NW.unitPrice card = some (ut, op) ∧
        NW.inBounds (NW.saleWithClub card (NW.refPerKg card ut op) op) = true ∧
        pd = { sale_price := NW.saleWithClub card (NW.refPerKg card ut op) op,
               original_price := op, unit_type := ut,
               price_per_kg := NW.refPerKg card ut op } := by
  unfold NW.extract_all_prices
  cases hbase : NW.unitPrice card with
  | none => simp
  | some base =>
    obtain ⟨ut, op⟩ := base
    simp only []
    constructor
    · intro h
      split at h
      · rename_i hin
        exact ⟨ut, op, rfl, hin, (Option.some.inj h).symm⟩
      · exact absurd h (by simp)
    · rintro ⟨ut2, op2, heq, hin, hpd⟩
      obtain ⟨h1, h2⟩ := Prod.mk.injEq .. ▸ Option.some.inj heq
      subst h1
      subst h2
      rw [if_pos hin, hpd]

/-! ## Claims -/

/-- C6: the Cleanup recompute of `saving` and `percent_off` is idempotent —
for every batch, applying the recompute step of `clean_newworld` twice
yields exactly the same `saving` and `percent_off` values as applying it
once (the step reads only `sale_price` and `original_price`, which it never
writes). -/
theorem cleanup_recompute_idempotent (rows : List NW.CleanRow) :
    (rows.map NW.recompute).map NW.recompute = rows.map NW.recompute := by
  rw [List.map_map]
  exact List.map_congr_left fun r _ => rfl

/-- C7: `combine_csvs` merges per-store cleaned batches of sizes
`n1..n4` into a master dataset of size `n1+n2+n3+n4`, with every row's
`store` field set to its source store's name, rows appearing in the fixed
store order New World, PAK'nSAVE, Woolworths, Mad Butcher with each store's
internal order preserved (row `i` of the master is the projection of the
corresponding source row), and no deduplication. -/
theorem combine_master_merge (nw : List NW.CleanRow) (ps : List PS.CleanRow)
    (ww : List WW.CleanRow) (mb : List MB.CleanRow) :
    (combine_csvs nw ps ww mb).length
        = nw.length + ps.length + ww.length + mb.length ∧
    (combine_csvs nw ps ww mb).map MasterRow.store
        = List.replicate nw.length "New World" ++
          List.replicate ps.length "PAK\x27nSAVE" ++
          List.replicate ww.length "Woolworths" ++
          List.replicate mb.length "Mad Butcher" ∧
    ∀ i : ℕ,
      (combine_csvs nw ps ww mb)[i]? =
        if i < nw.length then (nw[i]?).map projNewWorld
        else if i < nw.length + ps.length then
          (ps[i - nw.length]?).map projPaknsave
        else if i < nw.length + ps.length + ww.length then
          (ww[i - nw.length - ps.length]?).map projWoolworths
        else (mb[i - nw.length - ps.length - ww.length]?).map projMadButcher := by
  refine ⟨by simp [combine_csvs]; omega, ?_, ?_⟩
  · unfold combine_csvs
    simp only [List.map_append, List.map_map]
    rw [show (MasterRow.store ∘ projNewWorld)
          = fun (_ : NW.CleanRow) => "New World" from rfl,
        show (MasterRow.store ∘ projPaknsave)
          = fun (_ : PS.CleanRow) => "PAK\x27nSAVE" from rfl,
        show (MasterRow.store ∘ projWoolworths)
          = fun (_ : WW.CleanRow) => "Woolworths" from rfl,
        show (MasterRow.store ∘ projMadButcher)
          = fun (_ : MB.CleanRow) => "Mad Butcher" from rfl,
        List.map_const', List.map_const', List.map_const', List.map_const']
  · intro i
    unfold combine_csvs
    rw [List.getElem?_append, List.getElem?_append, List.getElem?_append]
    simp only [List.length_map, List.length_append, List.getElem?_map]
    split_ifs <;> (try simp only [Nat.sub_sub, Nat.add_assoc]) <;> first | rfl | omega

/-- C8 counterexample: the produced master header has no `sku` column, so it
differs from the header claimed in specification §6. -/
theorem master_header_cex : masterColumns ≠ specMasterColumns := by decide

/-- C8 (amended): the master header is exactly the §6 header **minus the
`sku` column** — `store, name, brand, price, original_price, price_per_kg,
unit_type, saving, percent_off, deal_type, scraped_at` — and the `price`
column carries each store's sale-price value (`sale_price` for New World and
Woolworths, the `price` column — PAK'nSAVE's displayed price, Mad Butcher's
renamed `sale_price` — for the other two). -/
theorem master_header_amended :
    masterColumns = specMasterColumns.erase ("sku") ∧
    (∀ r : NW.CleanRow, (projNewWorld r).price = r.sale_price) ∧
    (∀ r : WW.CleanRow, (projWoolworths r).price = r.sale_price) ∧
    (∀ r : PS.CleanRow, (projPaknsave r).price = r.price) ∧
    (∀ r : MB.CleanRow, (projMadButcher r).price = r.price) :=
  ⟨by decide, fun _ => rfl, fun _ => rfl, fun _ => rfl, fun _ => rfl⟩

/-- Inversion of the PAK'nSAVE record builder: every built record duplicates
its displayed price into `promo_price` and carries `saving = 0`. -/
theorem ps_parse_fields {c : PS.Card} {r : PS.Product}
    (h : PS.parse_product_card c = some r) :
    r.promo_price = r.price ∧ r.saving = 0 := by
  unfold PS.parse_product_card at h
  split at h
  · exact absurd h (by simp)
  · split at h
    · exact absurd h (by simp)
    · split at h
      · exact absurd h (by simp)
      · obtain rfl := (Option.some.inj h).symm
        exact ⟨rfl, rfl⟩

/-- C10: every record produced for the PAK'nSAVE store has
`promo_price = price` and `saving = 0` at build time, keeps them and gets
`percent_off = 0` through `clean_paknsave`, and its master projection has
`original_price = price`, `saving = 0` and `percent_off = 0` — no PAK'nSAVE
record ever reports a discount anywhere in the pipeline or in the master
dataset. -/
theorem paknsave_no_discount (cards : List PS.Card) :
    (∀ r ∈ cards.filterMap PS.parse_product_card,
        r.promo_price = r.price ∧ r.saving = 0) ∧
    (∀ row ∈ PS.clean_paknsave (cards.filterMap PS.parse_product_card),
        row.promo_price = row.price ∧ row.saving = 0 ∧ row.percent_off = 0) ∧
    (∀ m ∈ (PS.clean_paknsave (cards.filterMap PS.parse_product_card)).map projPaknsave,
        m.original_price = m.price ∧ m.saving = 0 ∧ m.percent_off = 0) := by
  have h1 : ∀ r ∈ cards.filterMap PS.parse_product_card,
      r.promo_price = r.price ∧ r.saving = 0 := by
    intro r hr
    obtain ⟨c, -, hc⟩ := List.mem_filterMap.mp hr
    exact ps_parse_fields hc
  have h2 : ∀ row ∈ PS.clean_paknsave (cards.filterMap PS.parse_product_card),
      row.promo_price = row.price ∧ row.saving = 0 ∧ row.percent_off = 0 := by
    intro row hrow
    obtain ⟨r, hrmem, rfl⟩ := List.mem_map.mp hrow
    obtain ⟨hp, hs⟩ := h1 r (List.mem_filter.mp hrmem).1
    exact ⟨hp, hs, rfl⟩
  refine ⟨h1, h2, ?_⟩
  intro m hm
  obtain ⟨row, hrmem, rfl⟩ := List.mem_map.mp hm
  obtain ⟨hp, hs, hpc⟩ := h2 row hrmem
  exact ⟨hp, hs, hpc⟩

/-- A PAK'nSAVE card observed from the text
`"Fresh Chicken Breast 1kg\n12.99 ea\n$18.95/1kg"` with the Everyday-Low
badge and testid `product-5131155-KGM`. -/
def c10card : PS.Card :=
  { anchorTexts := ["Fresh Chicken Breast 1kg"], headingTexts := [],
    nameClassText := none, unitMatches := [(12, 99, "ea")],
    perKgMatches := [(18, 95)], allPriceMatches := [(12, 99), (18, 95)],
    is_everyday_low := true, is_extra_low := false, is_super_deal := false,
    idAttrs := [none, none, none, some "product-5131155-KGM"],
    brandText := none, scraped_at := "t" }

/-- The cleaned row the pipeline produces for `c10card`. -/
def c10cleanRow : PS.CleanRow :=
  { product_id := some "5131155", name := "Fresh Chicken Breast 1kg",
    brand := none, price := 12990000, price_per_kg := some 18950000,
    unit_type := "ea", promo_price := 12990000, saving := 0,
    is_everyday_low := true, is_extra_low := false, is_super_deal := false,
    badge_type := some "EVERYDAY", percent_off := 0, scraped_at := "t" }

/-- C10 witness: the no-discount invariant evaluated on the concrete card
`c10card` run through builder, cleanup and master projection. -/
theorem paknsave_no_discount_witness :
    (projPaknsave c10cleanRow).original_price = (projPaknsave c10cleanRow).price ∧
    (projPaknsave c10cleanRow).saving = 0 ∧
    (projPaknsave c10cleanRow).percent_off = 0 :=
  (paknsave_no_discount [c10card]).2.2 (projPaknsave c10cleanRow) (by decide)

/-- Strategy 1 of the Woolworths pack-price extractor only returns values
strictly between $1 and $500. -/
theorem ww_strategy1_bounds {card : WW.Card} {p : ℤ}
    (h : WW.strategy1 card = some p) : 1000000 < p ∧ p < 500000000 := by
  unfold WW.strategy1 at h
  split at h
  · dsimp only at h
    split at h
    · exact absurd h (by simp)
    · split at h
      · rename_i hb
        obtain rfl := (Option.some.inj h).symm
        simpa using hb
      · exact absurd h (by simp)
  · exact absurd h (by simp)

/-- Strategy 2 of the Woolworths pack-price extractor only returns values
strictly between $1 and $500. -/
theorem ww_strategy2_bounds {card : WW.Card} {p : ℤ}
    (h : WW.strategy2 card = some p) : 1000000 < p ∧ p < 500000000 := by
  unfold WW.strategy2 at h
  obtain ⟨o, -, ho⟩ := List.exists_of_findSome?_eq_some h
  cases o with
  | none => exact absurd ho (by simp)
  | some t =>
    rw [Option.some_bind] at ho
    split at ho
    · exact absurd ho (by simp)
    · dsimp only at ho
      split at ho
      · rename_i hb
        simp only [Bool.and_eq_true, decide_eq_true_eq] at hb
        obtain rfl := (Option.some.inj ho).symm
        exact ⟨hb.1.2, hb.2⟩
      · exact absurd ho (by simp)

/-- Every strategy-3 candidate lies in `[$1, $100]`. -/
theorem ww_strat3_bounds {card : WW.Card} {p : ℤ}
    (h : p ∈ WW.strat3Candidates card) : 1000000 ≤ p ∧ p ≤ 100000000 := by
  unfold WW.strat3Candidates at h
  obtain ⟨m, -, hm⟩ := List.mem_filterMap.mp h
  dsimp only at hm
  split at hm
  · exact absurd hm (by simp)
  · split at hm
    · exact absurd hm (by simp)
    · split at hm
      · exact absurd hm (by simp)
      · rename_i h1 h2 h3
        simp only [Bool.or_eq_true, decide_eq_true_eq, not_or] at h3
        obtain rfl := Option.some.inj hm
        constructor <;> omega

/-- The Woolworths pack price, when extracted, lies in `[$1, $500)`. -/
theorem ww_pack_bounds {card : WW.Card} {p : ℤ}
    (h : WW.extract_pack_price card = some p) :
    1000000 ≤ p ∧ p < 500000000 := by
  unfold WW.extract_pack_price at h
  split at h
  · rename_i q hq
    obtain rfl := Option.some.inj h
    have := ww_strategy1_bounds hq
    omega
  · split at h
    · rename_i q hq
      obtain rfl := Option.some.inj h
      have := ww_strategy2_bounds hq
      omega
    · have hmem := (int_min?_spec h).1
      have := ww_strat3_bounds hmem
      omega

/-- C9: the Record Builders (`parse_product_card` of the New World and
Woolworths scrapers, the two cited in the claim) are total functions into
`Option`: when name extraction fails or price extraction fails the result is
`none` (the card is dropped, nothing is raised), and an out-of-range
resolved price cannot appear in a returned record (for New World the final
check enforces `0.5 <= sale_price <= 500`; for Woolworths every strategy
bounds the price inside `[1, 500)`). -/
theorem builder_never_raises :
    (∀ card : NW.Card, NW.extract_name card = none →
        NW.parse_product_card card = none) ∧
    (∀ card : NW.Card, NW.extract_all_prices card = none →
        NW.parse_product_card card = none) ∧
    (∀ (card : NW.Card) (r : NW.Product), NW.parse_product_card card = some r →
        500000 ≤ r.sale_price ∧ r.sale_price ≤ 500000000) ∧
    (∀ card : WW.Card, WW.extract_name card = none →
        WW.parse_product_card card = none) ∧
    (∀ card : WW.Card, WW.extract_pack_price card = none →
        WW.parse_product_card card = none) ∧
    (∀ (card : WW.Card) (r : WW.Product), WW.parse_product_card card = some r →
        1000000 ≤ r.sale_price ∧ r.sale_price < 500000000) := by
  refine ⟨?_, ?_, ?_, ?_, ?_, ?_⟩
  · intro card h
    simp [NW.parse_product_card, h]
  · intro card h
    unfold NW.parse_product_card
    cases hn : NW.extract_name card with
    | none => rfl
    | some n => split <;> simp [h]
  · intro card r h
    unfold NW.parse_product_card at h
    split at h
    · exact absurd h (by simp)
    · split at h
      · exact absurd h (by simp)
      · split at h
        · exact absurd h (by simp)
        · rename_i pd hpd
          obtain ⟨ut, op, -, hin, rfl⟩ := nw_extract_iff.mp hpd
          obtain rfl := (Option.some.inj h).symm
          simpa [NW.inBounds] using hin
  · intro card h
    simp [WW.parse_product_card, h]
  · intro card h
    unfold WW.parse_product_card
    cases hn : WW.extract_name card with
    | none => rfl
    | some n => simp [h]
  · intro card r h
    unfold WW.parse_product_card at h
    split at h
    · exact absurd h (by simp)
    · split at h
      · exact absurd h (by simp)
      · rename_i sp hsp
        obtain rfl := (Option.some.inj h).symm
        exact ww_pack_bounds hsp

/-- A card with no name sources and no price tokens: both builders drop it. -/
def c9nwCard : NW.Card :=
  { anchorTexts := [], headingTexts := [], nameClassText := none,
    eaMatches := [], kgMatches := [], perKgMatches := [], genericMatches := [],
    clubBadgeMatch := none, is_club_deal := false, is_super_saver := false,
    skuAttrs := [], brandText := none, scraped_at := "t" }

/-- A Woolworths card with no observations at all. -/
def c9wwCard : WW.Card :=
  { headingTexts := [], productLinkText := none, ariaLabel := none,
    titleAttr := none, dollarsText := none, centsText := none,
    priceElemTexts := [], fullText := "", textMatches := [], wasMatch := none,
    strikeTexts := [], skuAttrs := [], hrefResolved := none, brandText := none,
    scraped_at := "t" }

/-- C9 witness: both builders return `none` on the concrete empty cards. -/
theorem builder_never_raises_witness :
    NW.parse_product_card c9nwCard = none ∧
    WW.parse_product_card c9wwCard = none :=
  ⟨builder_never_raises.1 c9nwCard (by decide),
   builder_never_raises.2.2.2.1 c9wwCard (by decide)⟩

/-- A Mad Butcher card whose strike-through (`del`) price `$5.00` is *below*
its sale price `$8.00`: text `"Premium Beef Sausages Pack $8.00 $5.00"`. -/
def c4mbCard : MB.Card :=
  { titleText := some "Premium Beef Sausages Pack", linkText := none,
    anchorTexts := [], insText := some "$8.00", regularText := none,
    delText := some "$5.00",
    fullText := "Premium Beef Sausages Pack $8.00 $5.00",
    textMatches := [(8, 0), (5, 0)], dataAttrs := [none, none, none],
    classAttr := none, scraped_at := "t" }

/-- C4 counterexample: on `c4mbCard` the Mad Butcher builder returns a
record with `saving = -3.00`, which is not `max(0, original - sale) = 0`,
and with `original_price < sale_price`; the claim fails on the code. -/
theorem builder_saving_cex :
    (MB.parse_product_card c4mbCard).map
        (fun r => (r.saving, r.original_price, r.sale_price))
      = some (-3000000, 5000000, 8000000) ∧
    ¬((-3000000 : ℤ) = max 0 (5000000 - 8000000)) ∧
    ¬((8000000 : ℤ) ≤ 5000000) := by decide

/-- C4 (amended): at build time the Woolworths builder computes
`saving = max(0, round(original_price - sale_price, 2))` (clamped as the
claim states), while the New World and Mad Butcher builders compute the
unclamped `saving = original_price - sale_price`; for New World the
extractor guarantees `sale_price <= original_price`, so its saving is still
never negative, but a Mad Butcher record can carry a negative saving and
`original_price < sale_price` (see `builder_saving_cex`). -/
theorem builder_saving_amended :
    (∀ (card : WW.Card) (r : WW.Product), WW.parse_product_card card = some r →
        r.saving = max 0 (roundCents (r.original_price - r.sale_price))) ∧
    (∀ (card : NW.Card) (r : NW.Product), NW.parse_product_card card = some r →
        r.saving = r.original_price - r.sale_price ∧
        r.sale_price ≤ r.original_price ∧ 0 ≤ r.saving) ∧
    (∀ (card : MB.Card) (r : MB.Product), MB.parse_product_card card = some r →
        r.saving = r.original_price - r.sale_price) := by
  refine ⟨?_, ?_, ?_⟩
  · intro card r h
    unfold WW.parse_product_card at h
    split at h
    · exact absurd h (by simp)
    · split at h
      · exact absurd h (by simp)
      · rename_i sp hsp
        obtain rfl := (Option.some.inj h).symm
        dsimp only
        split
        · rename_i hlt
          exact (max_eq_right (roundCents_nonneg (by omega))).symm
        · rename_i hnlt
          exact (max_eq_left (roundCents_nonpos (by omega))).symm
  · intro card r h
    unfold NW.parse_product_card at h
    split at h
    · exact absurd h (by simp)
    · split at h
      · exact absurd h (by simp)
      · split at h
        · exact absurd h (by simp)
        · rename_i pd hpd
          obtain rfl := (Option.some.inj h).symm
          obtain ⟨ut, op, hunit, hin, rfl⟩ := nw_extract_iff.mp hpd
          dsimp only
          refine ⟨rfl, saleWithClub_le card _ op, ?_⟩
          have := saleWithClub_le card (NW.refPerKg card ut op) op
          omega
  · intro card r h
    unfold MB.parse_product_card at h
    split at h
    · exact absurd h (by simp)
    · split at h
      · exact absurd h (by simp)
      · obtain rfl := (Option.some.inj h).symm
        rfl

/-- A Woolworths card: pack price `$5.00`, was-price `$7.00`. -/
def c4wwCard : WW.Card :=
  { headingTexts := [some "Lamb Loin Chops Tray"], productLinkText := none,
    ariaLabel := none, titleAttr := none, dollarsText := some "$5",
    centsText := some "00", priceElemTexts := [],
    fullText := "Lamb Loin Chops Tray was $7.00 5 00",
    textMatches := [("7", "00")], wasMatch := some (7, 0), strikeTexts := [],
    skuAttrs := [], hrefResolved := none, brandText := none, scraped_at := "t" }

/-- The record the Woolworths builder produces for `c4wwCard`. -/
def c4wwRec : WW.Product :=
  { store := "woolworths", sku := none, name := "Lamb Loin Chops Tray",
    brand := none, sale_price := 5000000, original_price := 7000000,
    saving := 2000000, scraped_at := "t" }

/-- A New World card with a single ea-token and no badge, from the text
`"Chicken Nibbles Value Tray 9 99 ea"`. -/
def c4nwCard : NW.Card :=
  { anchorTexts := ["Chicken Nibbles Value Tray"], headingTexts := [],
    nameClassText := none, eaMatches := [(9, 99)], kgMatches := [],
    perKgMatches := [], genericMatches := [(9, 99)], clubBadgeMatch := none,
    is_club_deal := false, is_super_saver := false, skuAttrs := [],
    brandText := none, scraped_at := "t" }

/-- The record the New World builder produces for `c4nwCard`. -/
def c4nwRec : NW.Product :=
  { store := "newworld", sku := none, name := "Chicken Nibbles Value Tray",
    brand := none, sale_price := 9990000, original_price := 9990000,
    price_per_kg := none, unit_type := "ea", saving := 0,
    is_club_deal := false, is_super_saver := false, scraped_at := "t" }

/-- The record the Mad Butcher builder produces for `c4mbCard`. -/
def c4mbRec : MB.Product :=
  { store := "madbutcher", sku := none, name := "Premium Beef Sausages Pack",
    brand := some ("Mad Butcher"), sale_price := 8000000,
    original_price := 5000000, price_per_kg := none, unit_type := "ea",
    saving := -3000000, scraped_at := "t" }

/-- C4 witness: the amended saving relations evaluated on one concrete card
per store builder. -/
theorem builder_saving_amended_witness :
    c4wwRec.saving = max 0 (roundCents (c4wwRec.original_price - c4wwRec.sale_price)) ∧
    (c4nwRec.saving = c4nwRec.original_price - c4nwRec.sale_price ∧
      c4nwRec.sale_price ≤ c4nwRec.original_price ∧ 0 ≤ c4nwRec.saving) ∧
    c4mbRec.saving = c4mbRec.original_price - c4mbRec.sale_price :=
  ⟨builder_saving_amended.1 c4wwCard c4wwRec (by decide),
   builder_saving_amended.2.1 c4nwCard c4nwRec (by decide),
   builder_saving_amended.2.2 c4mbCard c4mbRec (by decide)⟩

/-- A Woolworths card whose was-price `$5.00` is below its pack price
`$8.00`; the record survives the $5 cleanup threshold. -/
def c5wwCard : WW.Card :=
  { headingTexts := [some "Beef Scotch Fillet Steak"], productLinkText := none,
    ariaLabel := none, titleAttr := none, dollarsText := some "$8",
    centsText := some "00", priceElemTexts := [],
    fullText := "Beef Scotch Fillet Steak was $5.00 8 00",
    textMatches := [("5", "00")], wasMatch := some (5, 0), strikeTexts := [],
    skuAttrs := [], hrefResolved := none, brandText := none, scraped_at := "t" }

/-- C5 counterexample: after `clean_woolworths` the record built from
`c5wwCard` carries `saving = -3.00` and `percent_off = -60.0%` — the
Woolworths cleanup recomputes the derived fields but never clamps
negatives, so the claimed post-cleanup invariant fails. -/
theorem cleanup_clamp_cex :
    (WW.clean_woolworths ((WW.parse_product_card c5wwCard).toList)).map
        (fun r => (r.saving, r.percent_off)) = [(-3000000, -600)] ∧
    ((-3000000 : ℤ) < 0 ∧ (-600 : ℤ) < 0) := by decide

/-- C5 (amended): the clamping the claim describes is performed by the New
World cleanup only — after `clean_newworld`, every retained record has
`saving >= 0` and `percent_off` in `[0, 100]` (tenths in `[0, 1000]`),
provided the batch's original prices are positive (true of every record the
builder emits); the Woolworths cleanup recomputes without clamping and can
output negative `saving`/`percent_off` (see `cleanup_clamp_cex`), and the
Mad Butcher cleanup never recomputes `saving` at all. -/
theorem cleanup_clamp_amended (rows : List NW.Product)
    (h : ∀ r ∈ rows, 0 < r.original_price) :
    ∀ row ∈ NW.clean_newworld rows,
      0 ≤ row.saving ∧ 0 ≤ row.percent_off ∧ row.percent_off ≤ 1000 := by
  intro row hrow
  unfold NW.clean_newworld at hrow
  obtain ⟨row1, hrow1, rfl⟩ := List.mem_map.mp hrow
  obtain ⟨r, hrmem, rfl⟩ := List.mem_map.mp hrow1
  have hfil := List.mem_filter.mp hrmem
  have hsale : (3500000 : ℤ) ≤ r.sale_price := by simpa using hfil.2
  have horig : 0 < r.original_price := h r hfil.1
  dsimp only [NW.recompute, NW.toCleanRow]
  refine ⟨le_max_left _ _, le_max_left _ _, ?_⟩
  exact max_le (by norm_num) (pctTenths_le_1000 horig (by omega))

/-- A New World record entering the cleanup. -/
def c5nwRec : NW.Product :=
  { store := "newworld", sku := none, name := "Pork Belly Roast Portion",
    brand := none, sale_price := 9990000, original_price := 9990000,
    price_per_kg := none, unit_type := "ea", saving := 0,
    is_club_deal := false, is_super_saver := false, scraped_at := "t" }

/-- The row `clean_newworld` produces from `c5nwRec`. -/
def c5cleanRow : NW.CleanRow :=
  { sku := none, name := "Pork Belly Roast Portion", brand := none,
    sale_price := 9990000, original_price := 9990000, price_per_kg := none,
    unit_type := "ea", saving := 0, percent_off := 0, is_club_deal := false,
    is_super_saver := false, scraped_at := "t" }

/-- C5 witness: the amended invariant evaluated on a concrete batch. -/
theorem cleanup_clamp_amended_witness :
    0 ≤ c5cleanRow.saving ∧ 0 ≤ c5cleanRow.percent_off ∧
    c5cleanRow.percent_off ≤ 1000 :=
  cleanup_clamp_amended [c5nwRec] (by decide) c5cleanRow (by decide)

/-- A New World Club-Deal card realizable from the text
`"Club Deal 23 49 Lamb Shoulder Chops Tray $23.49/1kg 25 99 ea"`: the
badge-adjacent token `23.49` coincides with the per-kg reference. -/
def c1card : NW.Card :=
  { anchorTexts := ["Lamb Shoulder Chops Tray"], headingTexts := [],
    nameClassText := none, eaMatches := [(25, 99)], kgMatches := [],
    perKgMatches := [(23, 49)],
    genericMatches := [(23, 49), (23, 49), (25, 99)],
    clubBadgeMatch := some (23, 49), is_club_deal := true,
    is_super_saver := false, skuAttrs := [], brandText := none,
    scraped_at := "t" }

/-- C1 counterexample: on `c1card` the extractor returns a record with
`unit_type = ea` whose `sale_price` `23.49` *equals* a value classified as a
per-kilogram reference on the same card (it is the recorded `price_per_kg`),
and the override was not reset to `original_price = 25.99` — the claimed
guardrail does not exist on the badge-adjacent path. -/
theorem perkg_guardrail_cex :
    (NW.extract_all_prices c1card).map
        (fun r => (r.unit_type, r.sale_price, r.original_price, r.price_per_kg))
      = some ("ea", 23490000, 25990000, some 23490000) ∧
    (23490000 : ℤ) ∈ c1card.perKgMatches.map NW.to_float ∧
    ¬((23490000 : ℤ) = 25990000) := by decide

/-- C1 (amended): the per-kg protection exists only inside the Club-Deal
*fallback* branch (badge-adjacent token absent or out of bounds), and it
filters candidates rather than resetting: there the final `sale_price`
either equals `original_price` (no override) or is more than one cent below
it and differs from the recorded `price_per_kg` (the first per-kg
reference).  On the badge-adjacent path no per-kg check is made at all
(see `perkg_guardrail_cex`). -/
theorem perkg_guardrail_amended (card : NW.Card) (pd : NW.PriceData)
    (h : NW.extract_all_prices card = some pd)
    (hcd : card.is_club_deal = true)
    (hnb : ∀ m ∈ card.clubBadgeMatch, NW.inBounds (NW.to_float m) = false) :
    pd.sale_price = pd.original_price ∨
      (pd.sale_price < pd.original_price - 10000 ∧
        pd.price_per_kg ≠ some pd.sale_price) := by
  obtain ⟨ut, op, hunit, hin, rfl⟩ := nw_extract_iff.mp h
  dsimp only
  have hsw : NW.saleWithClub card (NW.refPerKg card ut op) op =
      NW.clubFallbackPrice (card.genericMatches.map NW.to_float)
        (NW.refPerKg card ut op) op := by
    unfold NW.saleWithClub
    rw [hcd]
    cases hm : card.clubBadgeMatch with
    | none => simp
    | some m =>
      have hb := hnb m (by rw [hm]; rfl)
      simp [hb]
  rw [hsw]
  cases hk : NW.refPerKg card ut op with
  | none =>
    rcases clubFallback_spec (card.genericMatches.map NW.to_float) none op with
      hs | ⟨h1, -, -⟩
    · exact Or.inl hs
    · exact Or.inr ⟨h1, by simp⟩
  | some k =>
    rcases clubFallback_spec (card.genericMatches.map NW.to_float) (some k) op with
      hs | ⟨h1, -, h3⟩
    · exact Or.inl hs
    · refine Or.inr ⟨h1, ?_⟩
      have := h3 k rfl
      intro hc
      rw [Option.some.injEq] at hc
      omega

/-- A Club-Deal card realizable from the text
`"Club Deal 600 00 Beef Rump Steak Family Pack 18 79 $39.99/1kg 22 39 ea"`:
the badge-adjacent token `600.00` is out of bounds, so the fallback
heuristic runs over the generic tokens with reference `$39.99/1kg` and
original price `22 39 ea`. -/
def c1wCard : NW.Card :=
  { anchorTexts := ["Beef Rump Steak Family Pack"], headingTexts := [],
    nameClassText := none, eaMatches := [(22, 39)], kgMatches := [],
    perKgMatches := [(39, 99)],
    genericMatches := [(600, 0), (18, 79), (39, 99), (22, 39)],
    clubBadgeMatch := some (600, 0), is_club_deal := true,
    is_super_saver := false, skuAttrs := [], brandText := none,
    scraped_at := "t" }

/-- The price data the extractor returns for `c1wCard`. -/
def c1wPd : NW.PriceData :=
  { sale_price := 18790000, original_price := 22390000, unit_type := "ea",
    price_per_kg := some 39990000 }

/-- C1 witness: the amended guardrail evaluated on `c1wCard`. -/
theorem perkg_guardrail_amended_witness :
    c1wPd.sale_price = c1wPd.original_price ∨
      (c1wPd.sale_price < c1wPd.original_price - 10000 ∧
        c1wPd.price_per_kg ≠ some c1wPd.sale_price) :=
  perkg_guardrail_amended c1wCard c1wPd (by decide) (by decide) (by decide)

/-- A New World Club-Deal card realizable from the text
`"Club Deal 25 00 Pork Loin Chops Value Pack 15 00 20 00 ea"`: the
badge-adjacent token `25.00` is in range but not below the original price
`20.00`, while the generic token `15.00` is an in-range candidate below it. -/
def c2card : NW.Card :=
  { anchorTexts := ["Pork Loin Chops Value Pack"], headingTexts := [],
    nameClassText := none, eaMatches := [(20, 0)], kgMatches := [],
    perKgMatches := [], genericMatches := [(25, 0), (15, 0), (20, 0)],
    clubBadgeMatch := some (25, 0), is_club_deal := true,
    is_super_saver := false, skuAttrs := [], brandText := none,
    scraped_at := "t" }

/-- C2 counterexample: on `c2card` the claimed two-step override would fall
through to step (b) and set `sale_price = 15.00` (the minimum in-range
candidate below the original price, as the third conjunct shows exists), but
the code runs the fallback only when the badge token is missing or
out-of-range, so `sale_price` stays `20.00`. -/
theorem badge_override_cex :
    (NW.extract_all_prices c2card).map
        (fun r => (r.sale_price, r.original_price)) = some (20000000, 20000000) ∧
    ((c2card.genericMatches.map NW.to_float).filter
        (fun p => NW.inBounds p && p < 20000000)) = [15000000] ∧
    ¬((20000000 : ℤ) = 15000000) := by decide

/-- C2 (amended): with a Club-Deal badge, (a) an **in-range** badge-adjacent
token is accepted as `sale_price` exactly when strictly below
`original_price`, and otherwise `sale_price` stays `original_price` with no
fallback; (b) only when the badge-adjacent token is absent or out of bounds
does the fallback run — removing values within `1e-6` of the recorded
`price_per_kg` and keeping those more than one cent below `original_price`,
taking the minimum of the remainder (`original_price` when none remains). -/
theorem badge_override_amended (card : NW.Card) (pd : NW.PriceData)
    (h : NW.extract_all_prices card = some pd)
    (hcd : card.is_club_deal = true) :
    (∀ m, card.clubBadgeMatch = some m → NW.inBounds (NW.to_float m) = true →
      pd.sale_price =
        if NW.to_float m < pd.original_price then NW.to_float m
        else pd.original_price) ∧
    ((∀ m ∈ card.clubBadgeMatch, NW.inBounds (NW.to_float m) = false) →
      pd.sale_price =
        NW.clubFallbackPrice (card.genericMatches.map NW.to_float)
          pd.price_per_kg pd.original_price) := by
  obtain ⟨ut, op, hunit, hin, rfl⟩ := nw_extract_iff.mp h
  dsimp only
  constructor
  · intro m hm hb
    unfold NW.saleWithClub
    rw [hcd, hm]
    simp [hb]
  · intro hnb
    unfold NW.saleWithClub
    rw [hcd]
    cases hm : card.clubBadgeMatch with
    | none => simp
    | some m =>
      have hb := hnb m (by rw [hm]; rfl)
      simp [hb]

/-- Scenario C of the specification, from the text
`"Club Deal 18 79 Chicken Thigh Fillets Tray 22 39 ea"`: club badge with
tokens `18 79` and `22 39 ea`. -/
def c2wCard : NW.Card :=
  { anchorTexts := ["Chicken Thigh Fillets Tray"], headingTexts := [],
    nameClassText := none, eaMatches := [(22, 39)], kgMatches := [],
    perKgMatches := [], genericMatches := [(18, 79), (22, 39)],
    clubBadgeMatch := some (18, 79), is_club_deal := true,
    is_super_saver := false, skuAttrs := [], brandText := none,
    scraped_at := "t" }

/-- The price data the extractor returns for `c2wCard`: `sale_price 18.79`,
`original_price 22.39`. -/
def c2wPd : NW.PriceData :=
  { sale_price := 18790000, original_price := 22390000, unit_type := "ea",
    price_per_kg := none }

/-- C2 witness: part (a) of the amended override evaluated on `c2wCard`
(the spec's Scenario C). -/
theorem badge_override_amended_witness :
    c2wPd.sale_price =
      if NW.to_float (18, 79) < c2wPd.original_price then NW.to_float (18, 79)
      else c2wPd.original_price :=
  (badge_override_amended c2wCard c2wPd (by decide) (by decide)).1
    (18, 79) (by decide) (by decide)

/-- A Woolworths card whose DOM price strategies find nothing and whose text
`"Lamb Forequarter Chops $5.00 $9.00"` holds two in-range price tokens. -/
def c3wwCard : WW.Card :=
  { headingTexts := [some "Lamb Forequarter Chops"], productLinkText := none,
    ariaLabel := none, titleAttr := none, dollarsText := none,
    centsText := none, priceElemTexts := [],
    fullText := "Lamb Forequarter Chops $5.00 $9.00",
    textMatches := [("5", "00"), ("9", "00")], wasMatch := none,
    strikeTexts := [], skuAttrs := [], hrefResolved := none,
    brandText := none, scraped_at := "t" }

/-- C3 counterexample: the claim's fallback rule ("maximum in-range generic
price token") predicts `$9.00` on `c3wwCard`, but the Woolworths
`extract_pack_price` (one of the claim's two cited extractors) returns the
**minimum** `$5.00`. -/
theorem priority_order_cex :
    WW.extract_pack_price c3wwCard = some 5000000 ∧
    (9000000 : ℤ) ∈ WW.strat3Candidates c3wwCard ∧
    ¬((5000000 : ℤ) = 9000000) := by decide

/-- C3 (amended): the claimed priority order — explicit each-tokens over
explicit kg-tokens, then the maximum in-range generic token, rejecting when
no generic token is in range — holds for the **New World** extractor (which
takes the *last* match of the winning token family); the **Woolworths**
extractor has no token-family priority, and its full-text fallback returns
the **minimum** of the eligible tokens (in-range, at most $100, not part of
a multi-buy phrase). -/
theorem priority_order_amended :
    (∀ (card : NW.Card) (pd : NW.PriceData),
        NW.extract_all_prices card = some pd →
        (card.eaMatches ≠ [] →
          pd.unit_type = "ea" ∧
          some pd.original_price = (card.eaMatches.map NW.to_float).getLast?) ∧
        (card.eaMatches = [] → card.kgMatches ≠ [] →
          pd.unit_type = "kg" ∧
          some pd.original_price = (card.kgMatches.map NW.to_float).getLast?) ∧
        (card.eaMatches = [] → card.kgMatches = [] →
          pd.unit_type = "ea" ∧
          some pd.original_price
            = ((card.genericMatches.map NW.to_float).filter NW.inBounds).max?)) ∧
    (∀ card : NW.Card, card.eaMatches = [] → card.kgMatches = [] →
        ((card.genericMatches.map NW.to_float).filter NW.inBounds) = [] →
        NW.extract_all_prices card = none) ∧
    (∀ (card : WW.Card) (p : ℤ),
        WW.strategy1 card = none → WW.strategy2 card = none →
        WW.extract_pack_price card = some p →
        p ∈ WW.strat3Candidates card ∧ ∀ q ∈ WW.strat3Candidates card, p ≤ q) := by
  refine ⟨?_, ?_, ?_⟩
  · intro card pd h
    obtain ⟨ut, op, hunit, hin, rfl⟩ := nw_extract_iff.mp h
    unfold NW.unitPrice at hunit
    refine ⟨?_, ?_, ?_⟩
    · intro hea
      cases hl : (card.eaMatches.map NW.to_float).getLast? with
      | none =>
        exact absurd (by simpa using List.getLast?_eq_none_iff.mp hl) hea
      | some p =>
        rw [hl] at hunit
        obtain ⟨h1, h2⟩ := Prod.mk.injEq .. ▸ Option.some.inj hunit
        exact ⟨h1.symm, by rw [h2]⟩
    · intro hea hkg
      rw [hea] at hunit
      simp only [List.map_nil, List.getLast?_nil] at hunit
      cases hl : (card.kgMatches.map NW.to_float).getLast? with
      | none =>
        exact absurd (by simpa using List.getLast?_eq_none_iff.mp hl) hkg
      | some p =>
        rw [hl] at hunit
        obtain ⟨h1, h2⟩ := Prod.mk.injEq .. ▸ Option.some.inj hunit
        exact ⟨h1.symm, by rw [h2]⟩
    · intro hea hkg
      rw [hea, hkg] at hunit
      simp only [List.map_nil, List.getLast?_nil] at hunit
      cases hmax : ((card.genericMatches.map NW.to_float).filter NW.inBounds).max? with
      | none => rw [hmax] at hunit; exact absurd hunit (by simp)
      | some p =>
        rw [hmax] at hunit
        obtain ⟨h1, h2⟩ := Prod.mk.injEq .. ▸ Option.some.inj hunit
        exact ⟨h1.symm, by rw [h2]⟩
  · intro card hea hkg hgen
    unfold NW.extract_all_prices NW.unitPrice
    rw [hea, hkg, hgen]
    simp
  · intro card p h1 h2 h
    unfold WW.extract_pack_price at h
    rw [h1, h2] at h
    exact int_min?_spec h

/-- A New World card with both an ea-token and a kg-token, from the text
`"Beef Mince Premium Tray 12 89 kg 22 39 ea"`. -/
def c3wCard : NW.Card :=
  { anchorTexts := ["Beef Mince Premium Tray"], headingTexts := [],
    nameClassText := none, eaMatches := [(22, 39)], kgMatches := [(12, 89)],
    perKgMatches := [], genericMatches := [(12, 89), (22, 39)],
    clubBadgeMatch := none,
    is_club_deal := false, is_super_saver := false, skuAttrs := [],
    brandText := none, scraped_at := "t" }

/-- The price data the extractor returns for `c3wCard`: the ea-token wins. -/
def c3wPd : NW.PriceData :=
  { sale_price := 22390000, original_price := 22390000, unit_type := "ea",
    price_per_kg := none }

/-- C3 witness: the ea-priority on `c3wCard` and the Woolworths minimum rule
on `c3wwCard`, evaluated concretely. -/
theorem priority_order_amended_witness :
    (c3wPd.unit_type = "ea" ∧
      some c3wPd.original_price = (c3wCard.eaMatches.map NW.to_float).getLast?) ∧
    (5000000 : ℤ) ∈ WW.strat3Candidates c3wwCard ∧
    (5000000 : ℤ) ≤ 9000000 :=
  ⟨(priority_order_amended.1 c3wCard c3wPd (by decide)).1 (by decide),
   (priority_order_amended.2.2 c3wwCard 5000000 (by decide) (by decide)
      (by decide)).1,
   (priority_order_amended.2.2 c3wwCard 5000000 (by decide) (by decide)
      (by decide)).2 9000000 (by decide)⟩
